import Mathlib

/-!
# Verification of the frost-dkg participant state machine

This file gives a shallow embedding of the core of the `frost-dkg` crate
(`src/participant.rs`, `src/participant/round1.rs`, `round2.rs`, `round3.rs`,
`src/data.rs`, `src/parameters.rs`) and proves or refutes the specification
claims about it.

Modelling conventions:
* The scalar field `F` of the curve is an arbitrary `Field` with decidable
  equality; the group `G` is an arbitrary additive commutative group that is a
  module over `F` (scalar multiplication `k • H` stands for the Rust `H * k`).
  The group identity is `0`.
* Rust `BTreeMap<usize, V>` is modelled as a sorted association list
  `List (Nat × V)`; `alInsert` keeps the list sorted by key, so list order is
  `BTreeMap` iteration order.
* Byte strings are `List Nat`; the canonical encodings `to_repr` / `to_bytes`
  of the external group adapter are the context functions `reprF` / `reprG`,
  and `hash_to_scalar` is the context function `hashToScalar`.
* The merlin transcript is modelled as the list of absorbed
  (label, message-bytes) pairs in absorption order; `challenge_bytes`
  is the abstract context function `challenge` on that list.
* Fallible Rust code returns `RResult`: `ok`, `err` (a returned `Error`), or
  `panicked` (an out-of-bounds index or `expect` failure).  Rust methods that
  take `&mut self` are translated state-passing: they return the result
  together with the new participant value, and every early `return Err(..)`
  returns the participant unchanged, exactly as the source does not mutate
  before its final insert.
* The external collaborators (`vsss_rs` Feldman split, `postcard` codec, the
  OS RNG) are inputs: the split result is passed to the constructor, decoding
  is a context function, and the sampled nonce is a parameter.
-/

set_option autoImplicit false
set_option linter.unusedSectionVars false
set_option linter.unusedVariables false

namespace FrostDkg

/-- Result of a Rust call: `ok`, a returned `Err`, or a panic (out-of-bounds
index or failed `expect`). -/
inductive RResult (ε α : Type) where
  | ok (a : α)
  | err (e : ε)
  | panicked
  deriving DecidableEq, Repr

/-- Error kinds of `src/error.rs` (the carried strings are dropped). -/
inductive DkgError where
  | FmtError
  | IoError
  | VsssError
  | PostcardError
  | InitializationError
  | RoundError
  deriving DecidableEq, Repr

/-- Protocol rounds, `src/data.rs` `Round`. -/
inductive Round where
  | One
  | Two
  | Three
  | Four
  deriving DecidableEq, Repr

/-- Numeric value of a round (`From<Round> for u8` etc.); the derived Rust
`Ord` on `Round` agrees with comparing these numbers. -/
def Round.toNat : Round → Nat
  | .One => 1
  | .Two => 2
  | .Three => 3
  | .Four => 4

/-- `TryFrom<u8> for Round`. -/
def roundFromByte (b : Nat) : Option Round :=
  if b = 1 then some .One
  else if b = 2 then some .Two
  else if b = 3 then some .Three
  else if b = 4 then some .Four
  else none

/-- Participant kinds, `src/data.rs` `ParticipantType`. -/
inductive ParticipantType where
  | Secret
  | Refresh
  deriving DecidableEq, Repr

/-- `From<ParticipantType> for u16`. -/
def ParticipantType.toNat : ParticipantType → Nat
  | .Secret => 1
  | .Refresh => 2

/-- A share `(identifier, value)`, the `DefaultShare` of `vsss_rs` used as
`SecretShare<F>`. -/
structure Share (F : Type) where
  identifier : F
  value : F
  deriving DecidableEq, Repr

/-- The Schnorr signature `(R, s)` of `src/data.rs`. -/
structure Signature (F G : Type) where
  r : G
  s : F
  deriving DecidableEq, Repr

/-- Round-1 payload, `src/data.rs` `Round1Data`. -/
structure Round1Data (F G : Type) where
  sender_ordinal : Nat
  sender_id : F
  sender_type : ParticipantType
  feldman_commitments : List G
  signature : Signature F G
  deriving DecidableEq, Repr

/-- Round-2 payload, `src/data.rs` `Round2Data`; `TH` is the type of the
32-byte transcript hash. -/
structure Round2Data (F TH : Type) where
  sender_ordinal : Nat
  sender_id : F
  sender_type : ParticipantType
  secret_share : Share F
  transcript_hash : TH
  deriving DecidableEq, Repr

/-- Labels of the merlin transcript messages absorbed in
`Round1Data::add_to_transcript` and `round2` (each stands for the fixed byte
string label used in `src/data.rs` / `round2.rs`). -/
inductive TLabel where
  | seed              -- transcript seeded with "Frost DKG - Round 2 Transcript"
  | senderOrdinal
  | senderId
  | senderType
  | sigR
  | sigS
  | commitmentsLen
  | commitmentIndex
  | commitment
  deriving DecidableEq, Repr

/-- One absorbed transcript message: label and message bytes. -/
abbrev TranscriptMsg := TLabel × List Nat

/-- Big-endian bytes of `(n as u16)`. -/
def u16be (n : Nat) : List Nat :=
  [n / 256 % 256, n % 256]

/-- Big-endian bytes of `(n as u64)`. -/
def u64be (n : Nat) : List Nat :=
  [n / 2 ^ 56 % 256, n / 2 ^ 48 % 256, n / 2 ^ 40 % 256, n / 2 ^ 32 % 256,
   n / 2 ^ 24 % 256, n / 2 ^ 16 % 256, n / 2 ^ 8 % 256, n % 256]

/-- Lookup in a `BTreeMap<usize, V>` modelled as an association list. -/
def alGet {α : Type} (m : List (Nat × α)) (k : Nat) : Option α :=
  match m with
  | [] => none
  | (k', v) :: rest => if k' = k then some v else alGet rest k

/-- `BTreeMap::contains_key`. -/
def alContains {α : Type} (m : List (Nat × α)) (k : Nat) : Bool :=
  (alGet m k).isSome

/-- `BTreeMap::insert`: sorted insert, replacing an existing binding. -/
def alInsert {α : Type} (m : List (Nat × α)) (k : Nat) (v : α) : List (Nat × α) :=
  match m with
  | [] => [(k, v)]
  | (k', v') :: rest =>
    if k < k' then (k, v) :: (k', v') :: rest
    else if k = k' then (k, v) :: rest
    else (k', v') :: alInsert rest k v

/-- External collaborator context (group adapter byte encodings,
`hash_to_scalar`, the merlin challenge extractor, the `postcard` decoders). -/
structure DkgCtx (F G TH : Type) where
  reprF : F → List Nat
  reprG : G → List Nat
  hashToScalar : List Nat → F
  challenge : List TranscriptMsg → TH
  decodeR1 : List Nat → Option (Round1Data F G)
  decodeR2 : List Nat → Option (Round2Data F TH)

/-- The participant FSM state, `src/participant.rs` `Participant<I, G>`.
The type-level `participant_impl` (Secret vs Refresh) is the `ptype` field. -/
structure Participant (F G TH : Type) where
  ordinal : Nat
  id : F
  threshold : Nat
  limit : Nat
  round : Round
  completed : Bool
  secret_shares : List (Nat × Share F)
  feldman_verifiers : List G
  secret_share : Share F
  message_generator : G
  public_key : G
  powers_of_i : List F
  received_round1_data : List (Nat × Round1Data F G)
  received_round2_data : List (Nat × Round2Data F TH)
  all_participant_ids : List (Nat × F)
  valid_participant_ids : List (Nat × F)
  ptype : ParticipantType
  deriving DecidableEq, Repr

/-- `Round1OutputGenerator`, `src/data.rs`. -/
structure Round1OutputGenerator (F G : Type) where
  participant_ids : List (Nat × F)
  sender_type : ParticipantType
  sender_ordinal : Nat
  sender_id : F
  feldman_commitments : List G
  signature : Signature F G
  deriving DecidableEq, Repr

/-- `Round2OutputGenerator`, `src/data.rs`. -/
structure Round2OutputGenerator (F TH : Type) where
  participant_ids : List (Nat × F)
  sender_ordinal : Nat
  sender_id : F
  sender_type : ParticipantType
  secret_shares : List (Nat × Share F)
  transcript_hash : TH
  deriving DecidableEq, Repr

/-- `RoundOutputGenerator`, `src/data.rs`. -/
inductive RoundOutputGenerator (F G TH : Type) where
  | Round1 (g : Round1OutputGenerator F G)
  | Round2 (g : Round2OutputGenerator F TH)
  | Round3
  deriving DecidableEq, Repr

/-- The single Round-1 record that `RoundOutputGenerator::iter` serializes for
every recipient (data.rs, `Self::Round1` arm). -/
def round1OutData {F G : Type} (g : Round1OutputGenerator F G) : Round1Data F G :=
  { sender_ordinal := g.sender_ordinal
    sender_id := g.sender_id
    sender_type := g.sender_type
    feldman_commitments := g.feldman_commitments
    signature := g.signature }

/-- `RoundOutputGenerator::iter`, `Self::Round1` arm: one copy of the record to
every participant other than the sender, as `(dst_ordinal, dst_id, payload)`. -/
def iterRound1 {F G : Type} (g : Round1OutputGenerator F G) :
    List (Nat × F × Round1Data F G) :=
  (g.participant_ids.filter (fun kv => kv.1 ≠ g.sender_ordinal)).map
    (fun kv => (kv.1, kv.2, round1OutData g))

/-- `RoundOutputGenerator::iter`, `Self::Round2` arm: for every participant
other than the sender, the payload carrying `secret_shares[index]`; the
indexing `data.secret_shares[index]` panics (`none`) if a key is missing. -/
def iterRound2 {F TH : Type} (g : Round2OutputGenerator F TH) :
    Option (List (Nat × F × Round2Data F TH)) :=
  (g.participant_ids.filter (fun kv => kv.1 ≠ g.sender_ordinal)).mapM
    (fun kv =>
      (alGet g.secret_shares kv.1).map (fun sh =>
        (kv.1, kv.2,
          { sender_ordinal := g.sender_ordinal
            sender_id := g.sender_id
            sender_type := g.sender_type
            secret_share := sh
            transcript_hash := g.transcript_hash })))

/-- `Round1Data::add_to_transcript`, `src/data.rs` lines 266-283: the messages
absorbed into the merlin transcript for one stored Round-1 record. -/
def add_to_transcript {F G TH : Type} (ctx : DkgCtx F G TH) (d : Round1Data F G) :
    List TranscriptMsg :=
  [(TLabel.senderOrdinal, u16be d.sender_ordinal),
   (TLabel.senderId, ctx.reprF d.sender_id),
   (TLabel.senderType, u16be d.sender_type.toNat),
   (TLabel.sigR, ctx.reprG d.signature.r),
   (TLabel.sigS, ctx.reprF d.signature.s),
   (TLabel.commitmentsLen, u16be d.feldman_commitments.length)] ++
  (d.feldman_commitments.enum.map (fun ic =>
     [(TLabel.commitmentIndex, u64be ic.1), (TLabel.commitment, ctx.reprG ic.2)])).flatten

section Ops

variable {F G TH : Type} [Field F] [DecidableEq F] [AddCommGroup G] [Module F G]
  [DecidableEq G] [DecidableEq TH]

/-- `sum_of_products` of the group adapter: `Σ sᵢ · Pᵢ`. -/
def sumOfProducts (l : List (F × G)) : G :=
  (l.map (fun sg => sg.1 • sg.2)).sum

/-- `ParticipantImpl::check_feldman_verifier`: a Secret participant requires a
non-identity verifier at index 0, a Refresh participant requires identity. -/
def check_feldman_verifier (t : ParticipantType) (v : G) : Bool :=
  match t with
  | .Secret => decide (v ≠ 0)
  | .Refresh => decide (v = 0)

/-- `Participant::check_sending_participant_id`, `src/participant.rs`
lines 321-355 (the `round` argument is only used in the error strings). -/
def check_sending_participant_id (p : Participant F G TH) (round : Round)
    (sender_ordinal : Nat) (sender_id : F) : RResult DkgError Unit :=
  match alGet p.all_participant_ids sender_ordinal with
  | none => .err .RoundError
  | some i =>
    if i ≠ sender_id then .err .RoundError
    else if sender_id = 0 then .err .RoundError
    else if p.id = sender_id then .err .RoundError
    else .ok ()

/-- `Participant::bytes_for_schnorr`, `src/participant/round1.rs` lines 79-106. -/
def bytes_for_schnorr (ctx : DkgCtx F G TH) (p : Participant F G TH)
    (ordinal : Nat) (id : F) (participant_type : ParticipantType)
    (feldman_verifiers : List G) (r_i : G) : List Nat :=
  ctx.reprF id ++
  u16be ordinal ++
  u16be participant_type.toNat ++
  u16be p.threshold ++
  u16be p.limit ++
  ctx.reprG p.message_generator ++
  (p.all_participant_ids.map (fun kv => ctx.reprF kv.2)).flatten ++
  ctx.reprG r_i ++
  (feldman_verifiers.map (fun vf => ctx.reprG vf)).flatten

/-- `Participant::compute_signature`, `src/participant/round1.rs` lines 43-54.
Note the source uses `self.secret_share.value` (the aggregated-share field,
still holding its `Default` zero value in round 1), not the polynomial
constant. -/
def compute_signature (ctx : DkgCtx F G TH) (p : Participant F G TH)
    (k : F) (r_i : G) : Signature F G :=
  { r := r_i
    s := k + ctx.hashToScalar
      (bytes_for_schnorr ctx p p.ordinal p.id p.ptype p.feldman_verifiers r_i)
      * p.secret_share.value }

/-- `Participant::verify_signature`, `src/participant/round1.rs` lines 56-77;
the index `feldman_commitments[0]` panics on an empty vector. -/
def verify_signature (ctx : DkgCtx F G TH) (p : Participant F G TH)
    (round1data : Round1Data F G) : RResult DkgError Unit :=
  match round1data.feldman_commitments.head? with
  | none => .panicked
  | some c0 =>
    if round1data.signature.r ≠
        round1data.signature.s • p.message_generator -
        ctx.hashToScalar
          (bytes_for_schnorr ctx p round1data.sender_ordinal round1data.sender_id
            round1data.sender_type round1data.feldman_commitments
            round1data.signature.r) • c0 then
      .err .RoundError
    else .ok ()

/-- `Participant::round1`, `src/participant/round1.rs` lines 18-41.  The nonce
`k = I::random_value(OsRng)` is the parameter `kSample` for a Secret
participant and zero for a Refresh participant.  The self Round-1 record is
stored with an empty commitments vector. -/
def round1 (ctx : DkgCtx F G TH) (p : Participant F G TH) (kSample : F) :
    RResult DkgError (RoundOutputGenerator F G TH) × Participant F G TH :=
  let k : F := match p.ptype with
    | .Secret => kSample
    | .Refresh => 0
  let r_i := k • p.message_generator
  let signature := compute_signature ctx p k r_i
  let self_round1_data : Round1Data F G :=
    { sender_ordinal := p.ordinal
      sender_id := p.id
      sender_type := p.ptype
      feldman_commitments := []
      signature := signature }
  (.ok (.Round1
      { participant_ids := p.all_participant_ids
        sender_type := p.ptype
        sender_ordinal := p.ordinal
        sender_id := p.id
        feldman_commitments := p.feldman_verifiers
        signature := signature }),
   { p with
       received_round1_data := alInsert p.received_round1_data p.ordinal self_round1_data
       round := .Two })

/-- `Participant::receive_round1data`, `src/participant/round1.rs`
lines 108-162. -/
def receive_round1data (ctx : DkgCtx F G TH) (p : Participant F G TH)
    (data : Round1Data F G) : RResult DkgError Unit × Participant F G TH :=
  if Round.Two.toNat < p.round.toNat then (.err .RoundError, p)
  else if alContains p.received_round1_data data.sender_ordinal then (.err .RoundError, p)
  else match check_sending_participant_id p .One data.sender_ordinal data.sender_id with
  | .err e => (.err e, p)
  | .panicked => (.panicked, p)
  | .ok _ =>
    if data.feldman_commitments.isEmpty then (.err .RoundError, p)
    else if data.feldman_commitments.length ≠ p.threshold then (.err .RoundError, p)
    else if (data.feldman_commitments.drop 1).any (fun c => decide (c = 0)) then
      (.err .RoundError, p)
    else if check_feldman_verifier data.sender_type
        (data.feldman_commitments.headD 0) = false then (.err .RoundError, p)
    else match verify_signature ctx p data with
    | .err e => (.err e, p)
    | .panicked => (.panicked, p)
    | .ok _ =>
      (.ok (),
       { p with received_round1_data :=
           alInsert p.received_round1_data data.sender_ordinal data })

/-- `Participant::round2_ready`, `src/participant/round2.rs` lines 15-17. -/
def round2_ready (p : Participant F G TH) : Bool :=
  decide (p.round = .Two) && decide (p.threshold ≤ p.received_round1_data.length)

/-- The messages absorbed into the Round-2 merlin transcript: the seed label
followed by `add_to_transcript` of every stored Round-1 record in ordinal
order. -/
def round2Transcript (ctx : DkgCtx F G TH) (p : Participant F G TH) :
    List TranscriptMsg :=
  (TLabel.seed, []) ::
  (p.received_round1_data.map (fun kv => add_to_transcript ctx kv.2)).flatten

/-- `Participant::round2`, `src/participant/round2.rs` lines 19-52.  Note the
valid-id map is built locally and handed to the output generator only; the
source never assigns it to `self.valid_participant_ids`, and the stored self
Round-2 record carries the `secret_share` field (still `Default`). -/
def round2 (ctx : DkgCtx F G TH) (p : Participant F G TH) :
    RResult DkgError (RoundOutputGenerator F G TH) × Participant F G TH :=
  if round2_ready p = false then (.err .RoundError, p)
  else
    let valid_participant_ids :=
      p.received_round1_data.foldl
        (fun m kv => alInsert m kv.2.sender_ordinal kv.2.sender_id) []
    let transcript_hash := ctx.challenge (round2Transcript ctx p)
    (.ok (.Round2
        { participant_ids := valid_participant_ids
          sender_ordinal := p.ordinal
          sender_id := p.id
          sender_type := p.ptype
          secret_shares := p.secret_shares
          transcript_hash := transcript_hash }),
     { p with
         received_round2_data :=
           alInsert p.received_round2_data p.ordinal
             { sender_ordinal := p.ordinal
               sender_id := p.id
               sender_type := p.ptype
               secret_share := p.secret_share
               transcript_hash := transcript_hash }
         round := .Three })

/-- `Participant::receive_round2data`, `src/participant/round2.rs`
lines 54-120. -/
def receive_round2data (ctx : DkgCtx F G TH) (p : Participant F G TH)
    (data : Round2Data F TH) : RResult DkgError Unit × Participant F G TH :=
  if Round.Three.toNat < p.round.toNat then (.err .RoundError, p)
  else match check_sending_participant_id p .Two data.sender_ordinal data.sender_id with
  | .err e => (.err e, p)
  | .panicked => (.panicked, p)
  | .ok _ =>
    if alContains p.valid_participant_ids data.sender_ordinal = false then
      (.err .RoundError, p)
    else if alContains p.received_round2_data data.sender_ordinal then
      (.err .RoundError, p)
    else match alGet p.received_round2_data p.ordinal with
    | none => (.err .RoundError, p)
    | some self_data =>
      if data.transcript_hash ≠ self_data.transcript_hash then (.err .RoundError, p)
      else match alGet p.received_round1_data data.sender_ordinal with
      | none => (.err .RoundError, p)
      | some round1_data =>
        if ¬ (data.secret_share.value • p.message_generator -
              sumOfProducts (p.powers_of_i.zip round1_data.feldman_commitments) = 0) then
          (.err .RoundError, p)
        else
          (.ok (),
           { p with received_round2_data :=
               alInsert p.received_round2_data data.sender_ordinal data })

/-- `Participant::round3_ready`, `src/participant/round3.rs` lines 16-18. -/
def round3_ready (p : Participant F G TH) : Bool :=
  decide (p.round = .Three) && decide (p.threshold ≤ p.received_round2_data.length)

/-- The aggregation loop of `round3` (`src/participant/round3.rs` lines 32-40):
walks the Round-2 records accumulating `all_refresh`, the public key and the
share value; the indexings `received_round1_data[ordinal]` and
`feldman_commitments[0]` panic (`none`) when missing. -/
def round3Fold (r1map : List (Nat × Round1Data F G)) :
    List (Nat × Round2Data F TH) → Bool → G → F → Option (Bool × G × F)
  | [], all_refresh, pk, v => some (all_refresh, pk, v)
  | (o, r2) :: rest, all_refresh, pk, v =>
    match alGet r1map o with
    | none => none
    | some r1 =>
      match r1.feldman_commitments.head? with
      | none => none
      | some c0 =>
        round3Fold r1map rest
          (all_refresh && decide (r1.sender_type = .Refresh))
          (pk + c0) (v + r2.secret_share.value)

/-- `Participant::round3`, `src/participant/round3.rs` lines 20-60. -/
def round3 (p : Participant F G TH) :
    RResult DkgError (RoundOutputGenerator F G TH) × Participant F G TH :=
  if round3_ready p = false then (.err .RoundError, p)
  else match alGet p.secret_shares p.ordinal with
  | none => (.panicked, p)
  | some og_secret =>
    match round3Fold p.received_round1_data p.received_round2_data true 0 0 with
    | none => (.panicked, p)
    | some (all_refresh, public_key, value) =>
      if (all_refresh && !(decide (public_key = 0))) ||
         (!all_refresh && decide (public_key = 0)) then (.err .RoundError, p)
      else if value = og_secret.value then (.err .RoundError, p)
      else
        (.ok .Round3,
         { p with
             round := .Four
             completed := true
             public_key := public_key
             secret_share := { identifier := p.id, value := value } })

/-- `Participant::receive`, `src/participant.rs` lines 296-309.  `data[0]` on
an empty slice panics; an unknown round tag is an `InitializationError`; tags
3 and 4 are a `RoundError`; decoding failures are `PostcardError`. -/
def receive (ctx : DkgCtx F G TH) (p : Participant F G TH) (data : List Nat) :
    RResult DkgError Unit × Participant F G TH :=
  match data with
  | [] => (.panicked, p)
  | b :: rest =>
    match roundFromByte b with
    | none => (.err .InitializationError, p)
    | some .One =>
      match ctx.decodeR1 rest with
      | none => (.err .PostcardError, p)
      | some d => receive_round1data ctx p d
    | some .Two =>
      match ctx.decodeR2 rest with
      | none => (.err .PostcardError, p)
      | some d => receive_round2data ctx p d
    | some .Three => (.err .RoundError, p)
    | some .Four => (.err .RoundError, p)

/-- `Participant::run`, `src/participant.rs` lines 312-319 (the Secret nonce
sample for round 1 is the parameter `kSample`). -/
def run (ctx : DkgCtx F G TH) (p : Participant F G TH) (kSample : F) :
    RResult DkgError (RoundOutputGenerator F G TH) × Participant F G TH :=
  match p.round with
  | .One => round1 ctx p kSample
  | .Two => round2 ctx p
  | .Three => round3 p
  | .Four => (.err .RoundError, p)

/-- Protocol parameters, `src/parameters.rs` (the participant-id generator is
implicit in the share set handed to the constructor by the Feldman split). -/
structure DkgParams (F G : Type) where
  threshold : Nat
  limit : Nat
  message_generator : G

/-- The fill loop `for i in 2..threshold { powers_of_i[i] = powers_of_i[i-1] * id }`
of `Participant::initialize`, as structural recursion on a fuel that starts at
`threshold`. -/
def powersFill (id : F) (threshold : Nat) : Nat → Nat → List F → List F
  | 0, _, v => v
  | fuel + 1, i, v =>
    if i < threshold then
      powersFill id threshold fuel (i + 1) (v.set i ((v.getD (i - 1) 1) * id))
    else v

/-- Building `powers_of_i` in `Participant::initialize` (`src/participant.rs`
lines 162-166): a vector of `threshold` ones, then the unconditional write
`powers_of_i[1] = *id` — which is out of bounds (`none`) when
`threshold ≤ 1` — then the fill loop. -/
def buildPowersOfI (threshold : Nat) (id : F) : Option (List F) :=
  if 1 < threshold then
    some (powersFill id threshold threshold 2 ((List.replicate threshold (1 : F)).set 1 id))
  else none

/-- `Participant::initialize`, `src/participant.rs` lines 139-226.  The
external Feldman split `split_secret_with_participant_generator` consumes
`secret` and the id rule; its output `(shares, verifiers)` is passed in here,
so `secret` itself is otherwise unused in the model. -/
def initParticipant (P : DkgParams F G) (id : F) (secret : F)
    (ptype : ParticipantType) (shares : List (Share F)) (verifiers : List G) :
    RResult DkgError (Participant F G TH) :=
  if P.limit < P.threshold then .err .InitializationError
  else if P.threshold < 1 then .err .InitializationError
  else if P.message_generator = 0 then .err .InitializationError
  else match buildPowersOfI P.threshold id with
  | none => .panicked
  | some powers_of_i =>
    if (verifiers.drop 1).any (fun c => decide (c = 0)) then .err .InitializationError
    else match verifiers.head? with
    | none => .panicked
    | some v0 =>
      if check_feldman_verifier ptype v0 = false then .err .InitializationError
      else match shares.findIdx? (fun s => decide (s.identifier = id)) with
      | none => .err .InitializationError
      | some ordinal =>
        .ok
          { ordinal := ordinal
            id := id
            threshold := P.threshold
            limit := P.limit
            round := .One
            completed := false
            secret_shares := shares.enum
            feldman_verifiers := verifiers
            secret_share := { identifier := 0, value := 0 }
            message_generator := P.message_generator
            public_key := 0
            powers_of_i := powers_of_i
            received_round1_data := []
            received_round2_data := []
            all_participant_ids := shares.enum.map (fun is => (is.1, is.2.identifier))
            valid_participant_ids := []
            ptype := ptype }

/-- The numerator/denominator loop of `Participant::lagrange`
(`src/participant.rs` lines 357-372). -/
def lagrangeFold (share_id : F) (shares_ids : List F) : F × F :=
  shares_ids.foldl
    (fun nd x_j => if x_j = share_id then nd else (nd.1 * x_j, nd.2 * (x_j - share_id)))
    (1, 1)

/-- `Participant::lagrange`: `num * den.invert()`, where `.expect` panics
(`none`) on a zero denominator. -/
def lagrange (share : Share F) (shares_ids : List F) : Option F :=
  if (lagrangeFold share.identifier shares_ids).2 = 0 then none
  else some ((lagrangeFold share.identifier shares_ids).1 *
             ((lagrangeFold share.identifier shares_ids).2)⁻¹)

/-- `Participant::with_secret`, `src/participant.rs` lines 115-123: migrate an
old share, contributing the secret `old_share.value * lagrange(..)`. -/
def with_secret (new_identifier : F) (old_share : Share F) (P : DkgParams F G)
    (shares_ids : List F) (shares : List (Share F)) (verifiers : List G) :
    RResult DkgError (Participant F G TH) :=
  match lagrange old_share shares_ids with
  | none => .panicked
  | some lam =>
    initParticipant P new_identifier (old_share.value * lam) .Secret shares verifiers

/-- `Participant::get_valid_participant_ids`. -/
def get_valid_participant_ids (p : Participant F G TH) : List (Nat × F) :=
  p.valid_participant_ids

/-- The commitment `received_round1_data[o].feldman_commitments[0]` summed by
`round3` (zero when the record or the commitment is absent — `round3` panics
before using this default). -/
def commit0 (r1map : List (Nat × Round1Data F G)) (o : Nat) : G :=
  match alGet r1map o with
  | some r1 => r1.feldman_commitments.headD 0
  | none => 0

end Ops

/-! ## A concrete two-participant instance over `ZMod 5`

`F = G = ZMod 5` with the module structure of the field over itself
(`k • H = k * H`, identity `0`, generator `H = 1`), transcript hashes the
absorbed message list itself (`challenge = id`), and two choices of
`hash_to_scalar`: the constant `0` and the constant `1`.  Participant A has
id `1`, contributed secret `a₀ = 2` and polynomial `2 + 2x`; participant B has
id `2`, secret `1` and polynomial `1 + 3x`; `t = n = 2`. -/

/-- The scalar field of the concrete instance. -/
abbrev F5 := ZMod 5

/-- The transcript-hash type of the concrete instance: the absorbed messages. -/
abbrev TH5 := List TranscriptMsg

instance fact_prime_5 : Fact (Nat.Prime 5) := ⟨by norm_num⟩

/-- Concrete context whose `hash_to_scalar` is constantly `0` (so Schnorr
challenges vanish and honest flows proceed); `challenge` is the identity on
the absorbed transcript messages. -/
def ctxZero : DkgCtx F5 F5 TH5 :=
  { reprF := fun x => [x.val]
    reprG := fun x => [x.val]
    hashToScalar := fun _ => 0
    challenge := fun t => t
    decodeR1 := fun _ => none
    decodeR2 := fun _ => none }

/-- Concrete context whose `hash_to_scalar` is constantly `1`. -/
def ctxOne : DkgCtx F5 F5 TH5 :=
  { ctxZero with hashToScalar := fun _ => 1 }

/-- Concrete parameters `t = 2`, `n = 2`, `H = 1`. -/
def params5 : DkgParams F5 F5 := { threshold := 2, limit := 2, message_generator := 1 }

/-- Placeholder participant used only as the default of `okOrJunk`. -/
def junkP : Participant F5 F5 TH5 :=
  { ordinal := 0, id := 0, threshold := 0, limit := 0, round := .One, completed := false
    secret_shares := [], feldman_verifiers := [], secret_share := ⟨0, 0⟩
    message_generator := 0, public_key := 0, powers_of_i := []
    received_round1_data := [], received_round2_data := []
    all_participant_ids := [], valid_participant_ids := [], ptype := .Secret }

/-- Unwrap a successful construction (the concrete constructions succeed). -/
def okOrJunk (r : RResult DkgError (Participant F5 F5 TH5)) : Participant F5 F5 TH5 :=
  match r with
  | .ok p => p
  | _ => junkP

/-- Participant A as built by the constructor: id `1`, secret `2`, shares of
`2 + 2x` at ids `1, 2`, Feldman verifiers `(2·H, 2·H)`. -/
def pA0 : Participant F5 F5 TH5 :=
  okOrJunk (initParticipant params5 1 2 .Secret [⟨1, 4⟩, ⟨2, 1⟩] [2, 2])

/-- Participant B as built by the constructor: id `2`, secret `1`, shares of
`1 + 3x` at ids `1, 2`, Feldman verifiers `(1·H, 3·H)`. -/
def pB0 : Participant F5 F5 TH5 :=
  okOrJunk (initParticipant params5 2 1 .Secret [⟨1, 4⟩, ⟨2, 2⟩] [1, 3])

/-- Extract the round-1 output generator of a `run` result. -/
def genR1 (r : RResult DkgError (RoundOutputGenerator F5 F5 TH5) × Participant F5 F5 TH5) :
    Option (Round1OutputGenerator F5 F5) :=
  match r.1 with
  | .ok (.Round1 g) => some g
  | _ => none

/-- Extract the round-2 output generator of a `run` result. -/
def genR2 (r : RResult DkgError (RoundOutputGenerator F5 F5 TH5) × Participant F5 F5 TH5) :
    Option (Round2OutputGenerator F5 TH5) :=
  match r.1 with
  | .ok (.Round2 g) => some g
  | _ => none

/-- Placeholder Round-1 payload (default of the `getD` extractions). -/
def junkR1D : Round1Data F5 F5 :=
  { sender_ordinal := 0, sender_id := 0, sender_type := .Secret
    feldman_commitments := [], signature := ⟨0, 0⟩ }

/-- A after `round1` under `ctxOne`, nonce `k = 3`. -/
def pA1one : Participant F5 F5 TH5 := (round1 ctxOne pA0 3).2

/-- The Round-1 payload A broadcasts under `ctxOne`, nonce `k = 3`. -/
def dAone : Round1Data F5 F5 :=
  ((genR1 (round1 ctxOne pA0 3)).map round1OutData).getD junkR1D

/-- A after `round1` under `ctxZero`, nonce `k = 3`. -/
def pA1 : Participant F5 F5 TH5 := (round1 ctxZero pA0 3).2

/-- The Round-1 payload A broadcasts under `ctxZero`. -/
def dA : Round1Data F5 F5 :=
  ((genR1 (round1 ctxZero pA0 3)).map round1OutData).getD junkR1D

/-- B after `round1` under `ctxZero`, nonce `k = 1`. -/
def pB1 : Participant F5 F5 TH5 := (round1 ctxZero pB0 1).2

/-- The Round-1 payload B broadcasts under `ctxZero`. -/
def dB : Round1Data F5 F5 :=
  ((genR1 (round1 ctxZero pB0 1)).map round1OutData).getD junkR1D

/-- A after accepting B's Round-1 payload. -/
def pA2 : Participant F5 F5 TH5 := (receive_round1data ctxZero pA1 dB).2

/-- B after accepting A's Round-1 payload. -/
def pB2 : Participant F5 F5 TH5 := (receive_round1data ctxZero pB1 dA).2

/-- A after `round2`. -/
def pA3 : Participant F5 F5 TH5 := (round2 ctxZero pA2).2

/-- B after `round2`. -/
def pB3 : Participant F5 F5 TH5 := (round2 ctxZero pB2).2

/-- Placeholder round-2 output generator (default of `getD`). -/
def junkGen2 : Round2OutputGenerator F5 TH5 :=
  { participant_ids := [], sender_ordinal := 0, sender_id := 0, sender_type := .Secret
    secret_shares := [], transcript_hash := [] }

/-- Placeholder Round-2 payload (default of `getD`). -/
def junkR2D : Round2Data F5 TH5 :=
  { sender_ordinal := 0, sender_id := 0, sender_type := .Secret
    secret_share := ⟨0, 0⟩, transcript_hash := [] }

/-- A's round-2 output generator. -/
def genA2 : Round2OutputGenerator F5 TH5 := (genR2 (round2 ctxZero pA2)).getD junkGen2

/-- B's round-2 output generator. -/
def genB2 : Round2OutputGenerator F5 TH5 := (genR2 (round2 ctxZero pB2)).getD junkGen2

/-- The Round-2 payload B sends to A (ordinal 0). -/
def dBr2 : Round2Data F5 TH5 := (((iterRound2 genB2).getD []).headD (0, 0, junkR2D)).2.2

/-- A Round-1 payload from the unknown ordinal 5 (fails `check_sending`). -/
def dBadR1 : Round1Data F5 F5 :=
  { sender_ordinal := 5, sender_id := 3, sender_type := .Secret
    feldman_commitments := [], signature := ⟨0, 0⟩ }

/-- Parameters with threshold 1. -/
def params_t1 : DkgParams F5 F5 := { threshold := 1, limit := 1, message_generator := 1 }

/-- A state in round Three on which `round3` succeeds: both Round-1 records
carry non-empty commitments (ordinals 0 and 1), two Round-2 records with share
values 1 and 2, threshold 1, and the trivial-aggregate and public-key checks
pass (`pk = 3 ≠ 0`, aggregate `3 ≠ 4`). -/
def stateC5 : Participant F5 F5 TH5 :=
  { ordinal := 0, id := 1, threshold := 1, limit := 2, round := .Three, completed := false
    secret_shares := [(0, ⟨1, 4⟩), (1, ⟨2, 1⟩)]
    feldman_verifiers := [2, 2], secret_share := ⟨0, 0⟩
    message_generator := 1, public_key := 0, powers_of_i := [1]
    received_round1_data :=
      [(0, { sender_ordinal := 0, sender_id := 1, sender_type := .Secret
             feldman_commitments := [2], signature := ⟨0, 0⟩ }),
       (1, { sender_ordinal := 1, sender_id := 2, sender_type := .Secret
             feldman_commitments := [1], signature := ⟨0, 0⟩ })]
    received_round2_data :=
      [(0, { sender_ordinal := 0, sender_id := 1, sender_type := .Secret
             secret_share := ⟨1, 1⟩, transcript_hash := [] }),
       (1, { sender_ordinal := 1, sender_id := 2, sender_type := .Secret
             secret_share := ⟨1, 2⟩, transcript_hash := [] })]
    all_participant_ids := [(0, 1), (1, 2)]
    valid_participant_ids := [(0, 1), (1, 2)], ptype := .Secret }

/-- The participant after `round3` on `stateC5`. -/
def stateC5done : Participant F5 F5 TH5 := (round3 stateC5).2

/-! ## Claim theorems -/

/-- C1.  The Round-1 signature the code produces does not satisfy
`s = k + c·a₀` and does not verify: `compute_signature` multiplies the
challenge by `self.secret_share.value`, which is still the `Default` zero
after construction, so `s = k` and the peer's check
`R' = H·s − C₀·c = R − c·C₀ ≠ R` rejects every honest Secret Round-1 payload.
Concretely (participant A above, nonce `k = 3`, challenge `c = 1`): A's own
aggregated-share field is zero, its honest payload is rejected by B with a
`RoundError`, and the same payload with the spec's
`s = k + c·a₀ = 3 + 1·2 = 0` substituted is accepted. -/
theorem c1_round1_schnorr_code_bug :
    pA0.secret_share.value = 0 ∧
    dAone.signature.s = 3 ∧
    (receive_round1data ctxOne pB0 dAone).1 = .err .RoundError ∧
    (receive_round1data ctxOne pB0
        { dAone with signature := { r := dAone.signature.r, s := 3 + 1 * 2 } }).1 =
      .ok () := by
  refine ⟨by decide, by decide, by decide, by decide⟩

/-- C2.  The transcripts of two participants that accepted Round-1 payloads
from exactly the same ordinals are not equal: each stores its own Round-1
record with an empty commitments vector while the peer stores the full
`t`-element vector, so the absorbed merlin message streams (hence the 32-byte
hashes, short of a hash collision) disagree.  Concretely, A and B above both
hold Round-1 records for ordinals `{0, 1}`, both complete `round2`, and the
transcript values stored in their own Round-2 records differ. -/
theorem c2_transcript_disagreement :
    pA2.received_round1_data.map Prod.fst = [0, 1] ∧
    pB2.received_round1_data.map Prod.fst = [0, 1] ∧
    ((alGet pA3.received_round2_data 0).map (fun r => r.transcript_hash)).isSome = true ∧
    ((alGet pB3.received_round2_data 1).map (fun r => r.transcript_hash)).isSome = true ∧
    (alGet pA3.received_round2_data 0).map (fun r => r.transcript_hash) ≠
      (alGet pB3.received_round2_data 1).map (fun r => r.transcript_hash) := by
  refine ⟨by decide, by decide, by decide, by decide, by decide⟩

/-- C3.  After a successful `round2` the stored `valid_participant_ids` map is
empty, not the map of accepted senders: the source builds the map into the
output generator only and never assigns `self.valid_participant_ids`.
Concretely A's `round2` succeeds with accepted ordinals `{0, 1}` and generator
map `[(0,1),(1,2)]`, yet `get_valid_participant_ids` is empty and the Round-2
payload from accepted sender B is rejected (`sender_ordinal ∈ valid_ids`
fails), leaving A unchanged. -/
theorem c3_valid_ids_never_stored :
    get_valid_participant_ids pA3 = [] ∧
    (genR2 (round2 ctxZero pA2)).map (fun g => g.participant_ids) = some [(0, 1), (1, 2)] ∧
    (receive_round2data ctxZero pA3 dBr2).1 = .err .RoundError ∧
    (receive_round2data ctxZero pA3 dBr2).2 = pA3 := by
  refine ⟨by decide, by decide, by decide, by decide⟩

/-- C4.  The participant's own Round-2 record does not carry
`secret_shares[self.ordinal]`: `round2` stores `self.secret_share`, the
aggregated-share field still holding its `Default` zero value.  Concretely A's
own record carries the share `(0, 0)` while the share-to-self fixed at
construction is `(1, 4)`; the emission half of the claim does hold — the
output generator emits to ordinal 1 the payload carrying
`secret_shares[1] = (2, 1)` with the same transcript hash. -/
theorem c4_self_round2_share_mismatch :
    (alGet pA3.received_round2_data 0).map (fun r => r.secret_share) = some ⟨0, 0⟩ ∧
    alGet pA3.secret_shares 0 = some ⟨1, 4⟩ ∧
    (iterRound2 genA2).map (fun l => l.map (fun o => (o.1, o.2.2.secret_share))) =
      some [(1, ⟨2, 1⟩)] ∧
    (iterRound2 genA2).map (fun l => l.map (fun o => o.2.2.transcript_hash)) =
      some [genA2.transcript_hash] := by
  refine ⟨by decide, by decide, by decide, by decide⟩

/-- C9, counterexample.  After A's first successful advance (`round = Two`), a
Round-1 payload from the previously-unheard ordinal 1 is accepted and
recorded, contradicting the claim that it is rejected once Round 2 has been
entered. -/
theorem c9_round_two_still_accepts :
    pA1.round = Round.Two ∧
    alContains pA1.received_round1_data 1 = false ∧
    (receive_round1data ctxZero pA1 dB).1 = .ok () ∧
    alContains (receive_round1data ctxZero pA1 dB).2.received_round1_data 1 = true := by
  refine ⟨by decide, by decide, by decide, by decide⟩

/-- C10, counterexample.  `receive` on the empty byte slice panics
(`data[0]` is an out-of-bounds index), contradicting the claim that every
byte-slice input, including the empty slice, yields a `DkgResult`. -/
theorem c10_empty_input_panics :
    receive ctxZero pA0 ([] : List Nat) = (.panicked, pA0) := by
  decide

/-! ## General lemmas about the receive paths -/

section OpsLemmas

variable {F G TH : Type} [Field F] [DecidableEq F] [AddCommGroup G] [Module F G]
  [DecidableEq G] [DecidableEq TH]

/-- Every error of `check_sending_participant_id` is a `RoundError`. -/
theorem check_sending_err_eq (p : Participant F G TH) (r : Round) (so : Nat)
    (si : F) (e : DkgError)
    (h : check_sending_participant_id p r so si = .err e) : e = .RoundError := by
  unfold check_sending_participant_id at h
  split at h <;> repeat' split at h
  all_goals simp_all

/-- `check_sending_participant_id` never panics. -/
theorem check_sending_ne_panic (p : Participant F G TH) (r : Round) (so : Nat)
    (si : F) : check_sending_participant_id p r so si ≠ .panicked := by
  unfold check_sending_participant_id
  split <;> repeat' split
  all_goals simp

/-- Every error of `verify_signature` is a `RoundError`. -/
theorem verify_signature_err_eq (ctx : DkgCtx F G TH) (p : Participant F G TH)
    (d : Round1Data F G) (e : DkgError)
    (h : verify_signature ctx p d = .err e) : e = .RoundError := by
  unfold verify_signature at h
  split at h <;> repeat' split at h
  all_goals simp_all

/-- `verify_signature` only panics on an empty commitments vector. -/
theorem verify_signature_ne_panic (ctx : DkgCtx F G TH) (p : Participant F G TH)
    (d : Round1Data F G) (hne : d.feldman_commitments ≠ []) :
    verify_signature ctx p d ≠ .panicked := by
  unfold verify_signature
  cases hfc : d.feldman_commitments with
  | nil => exact absurd hfc hne
  | cons c0 rest => simp [hfc]; split <;> simp

/-- `receive_round1data` either rejects with a `RoundError` leaving the state
unchanged, or accepts and only inserts the payload. -/
theorem receive_round1data_cases (ctx : DkgCtx F G TH) (p : Participant F G TH)
    (d : Round1Data F G) :
    receive_round1data ctx p d = (.err .RoundError, p) ∨
    receive_round1data ctx p d =
      (.ok (), { p with received_round1_data :=
                   alInsert p.received_round1_data d.sender_ordinal d }) := by
  unfold receive_round1data
  repeat' split
  all_goals first
    | (left; rfl)
    | (right; rfl)
    | (rename_i heq; left;
       have hE := check_sending_err_eq _ _ _ _ _ heq; subst hE; rfl)
    | (rename_i heq; exact absurd heq (check_sending_ne_panic _ _ _ _))
    | (rename_i heq; left;
       have hE := verify_signature_err_eq _ _ _ _ heq; subst hE; rfl)
    | (rename_i hem _ _ _ heq;
       exact absurd heq (verify_signature_ne_panic _ _ _ (by simp_all)))

/-- `receive_round2data` either rejects with a `RoundError` leaving the state
unchanged, or accepts and only inserts the payload. -/
theorem receive_round2data_cases (ctx : DkgCtx F G TH) (p : Participant F G TH)
    (d : Round2Data F TH) :
    receive_round2data ctx p d = (.err .RoundError, p) ∨
    receive_round2data ctx p d =
      (.ok (), { p with received_round2_data :=
                   alInsert p.received_round2_data d.sender_ordinal d }) := by
  unfold receive_round2data
  repeat' split
  all_goals first
    | (left; rfl)
    | (right; rfl)
    | (rename_i heq; left;
       have hE := check_sending_err_eq _ _ _ _ _ heq; subst hE; rfl)
    | (rename_i heq; exact absurd heq (check_sending_ne_panic _ _ _ _))

/-- C6.  Every Round-1 or Round-2 payload that fails an acceptance check is
answered with a `RoundError` and leaves the participant's entire state
unchanged — in particular the payload is not inserted into `received_r1` or
`received_r2`. -/
theorem c6_reject_leaves_state_unchanged (ctx : DkgCtx F G TH)
    (p : Participant F G TH) :
    (∀ (d : Round1Data F G) (e : DkgError), (receive_round1data ctx p d).1 = .err e →
        e = .RoundError ∧ (receive_round1data ctx p d).2 = p) ∧
    (∀ (d : Round2Data F TH) (e : DkgError), (receive_round2data ctx p d).1 = .err e →
        e = .RoundError ∧ (receive_round2data ctx p d).2 = p) := by
  constructor
  · intro d e h
    rcases receive_round1data_cases ctx p d with hc | hc <;> rw [hc] at h ⊢ <;> simp_all
  · intro d e h
    rcases receive_round2data_cases ctx p d with hc | hc <;> rw [hc] at h ⊢ <;> simp_all

/-- C9, amended.  Once the participant has advanced past Round 2 (that is,
`round2` succeeded and `round` is `Three` or `Four`), every Round-1 payload is
rejected with a `RoundError` and nothing is recorded. -/
theorem c9_rejected_after_round_two (ctx : DkgCtx F G TH) (p : Participant F G TH)
    (d : Round1Data F G) (h : p.round = Round.Three ∨ p.round = Round.Four) :
    (receive_round1data ctx p d).1 = .err .RoundError ∧
    (receive_round1data ctx p d).2 = p := by
  unfold receive_round1data
  rcases h with h | h <;> rw [h] <;> simp [Round.toNat]

/-- C10, amended.  On every non-empty byte slice `receive` returns a
`DkgResult` — it never panics — and whenever it returns an error the
participant is unchanged; a first byte that is no known round tag yields an
`InitializationError` with the participant unchanged. -/
theorem c10_nonempty_receive_total (ctx : DkgCtx F G TH) (p : Participant F G TH)
    (b : Nat) (rest : List Nat) :
    (receive ctx p (b :: rest)).1 ≠ .panicked ∧
    (∀ e, (receive ctx p (b :: rest)).1 = .err e → (receive ctx p (b :: rest)).2 = p) ∧
    (b ∉ [1, 2, 3, 4] → receive ctx p (b :: rest) = (.err .InitializationError, p)) := by
  have hrecv : receive ctx p (b :: rest) = (.err .InitializationError, p) ∨
      receive ctx p (b :: rest) = (.err .PostcardError, p) ∨
      receive ctx p (b :: rest) = (.err .RoundError, p) ∨
      (∃ d, receive ctx p (b :: rest) = receive_round1data ctx p d) ∨
      (∃ d, receive ctx p (b :: rest) = receive_round2data ctx p d) := by
    unfold receive
    rcases hb : roundFromByte b with _ | r <;> simp only [hb]
    · left; trivial
    · cases r
      · rcases hd : ctx.decodeR1 rest with _ | d <;> simp only [hd]
        · right; left; trivial
        · right; right; right; left; exact ⟨d, rfl⟩
      · rcases hd : ctx.decodeR2 rest with _ | d <;> simp only [hd]
        · right; left; trivial
        · right; right; right; right; exact ⟨d, rfl⟩
      · right; right; left; trivial
      · right; right; left; trivial
  refine ⟨?_, ?_, ?_⟩
  · rcases hrecv with hc | hc | hc | ⟨d, hc⟩ | ⟨d, hc⟩ <;> rw [hc]
    · simp
    · simp
    · simp
    · rcases receive_round1data_cases ctx p d with h1 | h1 <;> rw [h1] <;> simp
    · rcases receive_round2data_cases ctx p d with h1 | h1 <;> rw [h1] <;> simp
  · intro e h
    rcases hrecv with hc | hc | hc | ⟨d, hc⟩ | ⟨d, hc⟩
    · rw [hc]
    · rw [hc]
    · rw [hc]
    · rw [hc] at h ⊢
      rcases receive_round1data_cases ctx p d with h1 | h1 <;> rw [h1] at h ⊢ <;> simp_all
    · rw [hc] at h ⊢
      rcases receive_round2data_cases ctx p d with h1 | h1 <;> rw [h1] at h ⊢ <;> simp_all
  · intro hmem
    simp only [List.mem_cons, List.mem_singleton, List.not_mem_nil] at hmem
    push_neg at hmem
    obtain ⟨h1, h2, h3, h4⟩ := hmem
    unfold receive
    have hb : roundFromByte b = none := by
      unfold roundFromByte
      simp [h1, h2, h3, h4]
    simp only [hb]

/-- Characterization of the `round3` aggregation loop: when it completes, the
accumulated public key and share value are the starting values plus the sums
over the walked Round-2 records, and every walked ordinal has a Round-1 record
with a non-empty commitments vector. -/
theorem round3Fold_some (r1map : List (Nat × Round1Data F G)) :
    ∀ (l : List (Nat × Round2Data F TH)) (ar : Bool) (pk : G) (v : F)
      (acc : Bool × G × F),
      round3Fold r1map l ar pk v = some acc →
      acc.2.1 = pk + (l.map (fun kv => commit0 r1map kv.1)).sum ∧
      acc.2.2 = v + (l.map (fun kv => kv.2.secret_share.value)).sum ∧
      ∀ kv ∈ l, ∃ r1, alGet r1map kv.1 = some r1 ∧ r1.feldman_commitments ≠ [] := by
  intro l
  induction l with
  | nil =>
    intro ar pk v acc h
    simp only [round3Fold, Option.some.injEq] at h
    subst h
    simp
  | cons hd tl ih =>
    intro ar pk v acc h
    obtain ⟨o, r2⟩ := hd
    unfold round3Fold at h
    cases h1 : alGet r1map o with
    | none => simp [h1] at h
    | some r1 =>
      simp only [h1] at h
      cases h2 : r1.feldman_commitments.head? with
      | none => simp [h2] at h
      | some c0 =>
        simp only [h2] at h
        obtain ⟨hpk, hv, hmem⟩ := ih _ _ _ _ h
        have hne : r1.feldman_commitments ≠ [] := by
          intro hnil
          rw [hnil] at h2
          simp at h2
        refine ⟨?_, ?_, ?_⟩
        · rw [hpk]
          simp [commit0, h1, h2, add_assoc]
        · rw [hv]
          simp [add_assoc]
        · intro kv hkv
          rcases List.mem_cons.mp hkv with heq | hmem2
          · subst heq
            exact ⟨r1, h1, hne⟩
          · exact hmem kv hmem2

/-- C5.  Whenever `round3` succeeds, the committed outputs are exactly the
claimed aggregates: `final_share.id` is the participant's id,
`final_share.value` is the sum of the stored Round-2 share values,
`public_key` is the sum of `received_r1[o].commitments[0]` over the same
ordinals, the round becomes `Four` and `completed` becomes `true`; moreover
success presupposes the Round-3 readiness gate (state `Three`, at least `t`
Round-2 records). -/
theorem c5_round3_completion_outputs (p : Participant F G TH)
    (out : RoundOutputGenerator F G TH) (p' : Participant F G TH)
    (hown : alContains p.received_round2_data p.ordinal = true)
    (h : round3 p = (.ok out, p')) :
    p'.secret_share.identifier = p.id ∧
    p'.secret_share.value =
      (p.received_round2_data.map (fun kv => kv.2.secret_share.value)).sum ∧
    p'.public_key =
      (p.received_round2_data.map (fun kv => commit0 p.received_round1_data kv.1)).sum ∧
    (∀ kv ∈ p.received_round2_data,
       ∃ r1, alGet p.received_round1_data kv.1 = some r1 ∧
             r1.feldman_commitments ≠ []) ∧
    p'.round = .Four ∧ p'.completed = true ∧ round3_ready p = true := by
  unfold round3 at h
  split at h
  · exact absurd h (by simp)
  · rename_i hready
    split at h
    · exact absurd h (by simp)
    · rename_i og_secret hog
      split at h
      · exact absurd h (by simp)
      · rename_i all_refresh public_key value hacc
        split at h
        · exact absurd h (by simp)
        · split at h
          · exact absurd h (by simp)
          · rw [Prod.mk.injEq] at h
            obtain ⟨hout, hp'⟩ := h
            obtain ⟨hpk, hv, hmem⟩ := round3Fold_some _ _ _ _ _ _ hacc
            have hpk' : public_key =
                (p.received_round2_data.map
                  (fun kv => commit0 p.received_round1_data kv.1)).sum := by
              rw [← zero_add ((p.received_round2_data.map
                (fun kv => commit0 p.received_round1_data kv.1)).sum)]
              exact hpk
            have hv' : value =
                (p.received_round2_data.map (fun kv => kv.2.secret_share.value)).sum := by
              rw [← zero_add ((p.received_round2_data.map
                (fun kv => kv.2.secret_share.value)).sum)]
              exact hv
            subst hp'
            refine ⟨rfl, hv', hpk', hmem, rfl, rfl, ?_⟩
            revert hready
            cases round3_ready p <;> simp

/-- The numerator/denominator pair accumulated by `lagrange` equals the
product of the ids different from the share's own id, paired with the product
of their differences to it. -/
theorem lagrangeFold_eq (sid : F) (ids : List F) :
    lagrangeFold sid ids =
      ((ids.filter (fun x => x ≠ sid)).prod,
       ((ids.filter (fun x => x ≠ sid)).map (fun x => x - sid)).prod) := by
  have hgen : ∀ (l : List F) (a b : F),
      List.foldl
        (fun nd x_j => if x_j = sid then nd else (nd.1 * x_j, nd.2 * (x_j - sid)))
        (a, b) l =
      (a * (l.filter (fun x => x ≠ sid)).prod,
       b * ((l.filter (fun x => x ≠ sid)).map (fun x => x - sid)).prod) := by
    intro l
    induction l with
    | nil => intro a b; simp
    | cons x xs ih =>
      intro a b
      by_cases hx : x = sid
      · simp only [List.foldl_cons, if_pos hx, List.filter_cons, hx]
        rw [ih]
        simp
      · simp only [List.foldl_cons, if_neg hx, List.filter_cons]
        rw [ih]
        simp [hx, mul_assoc]
  unfold lagrangeFold
  rw [hgen]
  simp

/-- The denominator accumulated by `lagrange` is never zero: every retained
factor `x − sid` has `x ≠ sid`. -/
theorem lagrange_den_ne_zero (sid : F) (ids : List F) :
    (lagrangeFold sid ids).2 ≠ 0 := by
  rw [lagrangeFold_eq]
  apply List.prod_ne_zero
  intro h0
  simp only [List.mem_map, List.mem_filter] at h0
  obtain ⟨x, ⟨hxmem, hxne⟩, hx0⟩ := h0
  rw [sub_eq_zero] at hx0
  simp at hxne
  exact hxne hx0

/-- In a field, the product of numerators times the inverse of the product of
denominators is the product of the per-factor quotients. -/
theorem prod_mul_inv_prod (sid : F) (m : List F) :
    m.prod * ((m.map (fun x => x - sid)).prod)⁻¹ =
      (m.map (fun x => x * (x - sid)⁻¹)).prod := by
  induction m with
  | nil => simp
  | cons y ys ih =>
    simp only [List.map_cons, List.prod_cons, mul_inv]
    rw [← ih]
    ring

/-- C7.  For every old share and id list: the denominator product of
`lagrange` is non-zero (each factor `x − old_share.id` with `x ≠ old_share.id`
is non-zero), the computed coefficient equals the per-factor product
`∏_{x ≠ id} x · (x − id)⁻¹`, and `with_secret` constructs the participant with
contributed secret `old_share.value · λ` for exactly that `λ`. -/
theorem c7_with_secret_lagrange (old_share : Share F) (shares_ids : List F)
    (P : DkgParams F G) (new_identifier : F) (shares : List (Share F))
    (verifiers : List G) :
    (lagrangeFold old_share.identifier shares_ids).2 ≠ 0 ∧
    lagrange old_share shares_ids =
      some (((shares_ids.filter (fun x => x ≠ old_share.identifier)).map
        (fun x => x * (x - old_share.identifier)⁻¹)).prod) ∧
    (with_secret new_identifier old_share P shares_ids shares verifiers :
        RResult DkgError (Participant F G TH)) =
      initParticipant P new_identifier
        (old_share.value *
          ((shares_ids.filter (fun x => x ≠ old_share.identifier)).map
            (fun x => x * (x - old_share.identifier)⁻¹)).prod)
        .Secret shares verifiers := by
  have hden := lagrange_den_ne_zero old_share.identifier shares_ids
  have hlag : lagrange old_share shares_ids =
      some (((shares_ids.filter (fun x => x ≠ old_share.identifier)).map
        (fun x => x * (x - old_share.identifier)⁻¹)).prod) := by
    unfold lagrange
    rw [if_neg hden, lagrangeFold_eq]
    rw [prod_mul_inv_prod]
  refine ⟨hden, hlag, ?_⟩
  unfold with_secret
  rw [hlag]

/-- C8.  For parameters passing the explicit checks (`t ≤ n`, `t ≥ 1`,
`H ≠ identity`) with threshold exactly 1, construction panics: the
unconditional write `powers_of_i[1] = *id` is out of bounds on the
length-1 vector. -/
theorem c8_threshold_one_panics (P : DkgParams F G) (id secret : F)
    (pt : ParticipantType) (shares : List (Share F)) (verifiers : List G)
    (ht : P.threshold = 1) (hl : P.threshold ≤ P.limit)
    (hg : P.message_generator ≠ 0) :
    (initParticipant P id secret pt shares verifiers :
        RResult DkgError (Participant F G TH)) = .panicked := by
  unfold initParticipant
  rw [if_neg (by omega), if_neg (by omega), if_neg hg]
  have hbp : buildPowersOfI P.threshold id = (none : Option (List F)) := by
    rw [ht]
    unfold buildPowersOfI
    simp
  rw [hbp]

end OpsLemmas

/-! ## Witnesses: the hypothesised theorems hold at concrete inputs -/

/-- Witness for C5: on `stateC5`, `round3` succeeds and the theorem applies. -/
theorem c5_round3_completion_outputs_witness :
    stateC5done.secret_share.identifier = stateC5.id ∧
    stateC5done.secret_share.value =
      (stateC5.received_round2_data.map (fun kv => kv.2.secret_share.value)).sum ∧
    stateC5done.public_key =
      (stateC5.received_round2_data.map
        (fun kv => commit0 stateC5.received_round1_data kv.1)).sum ∧
    (∀ kv ∈ stateC5.received_round2_data,
       ∃ r1, alGet stateC5.received_round1_data kv.1 = some r1 ∧
             r1.feldman_commitments ≠ []) ∧
    stateC5done.round = .Four ∧ stateC5done.completed = true ∧
    round3_ready stateC5 = true :=
  c5_round3_completion_outputs stateC5 .Round3 stateC5done (by decide) (by decide)

/-- Witness for C6: the Round-1 payload `dBadR1` fails the sender check
against `pA0`, and the theorem yields the unchanged state. -/
theorem c6_reject_leaves_state_unchanged_witness :
    DkgError.RoundError = DkgError.RoundError ∧
    (receive_round1data ctxZero pA0 dBadR1).2 = pA0 :=
  (c6_reject_leaves_state_unchanged ctxZero pA0).1 dBadR1 .RoundError (by decide)

/-- Witness for C8: `t = 1`, `n = 1`, `H = 1 ≠ 0` — construction panics. -/
theorem c8_threshold_one_panics_witness :
    (initParticipant params_t1 (1 : F5) 2 .Secret [⟨1, 2⟩] [2] :
        RResult DkgError (Participant F5 F5 TH5)) = .panicked :=
  c8_threshold_one_panics params_t1 1 2 .Secret [⟨1, 2⟩] [2] rfl (by decide) (by decide)

/-- Witness for the amended C9: `pA3` is in round Three, and the theorem
rejects `dB` leaving `pA3` unchanged. -/
theorem c9_rejected_after_round_two_witness :
    (receive_round1data ctxZero pA3 dB).1 = .err .RoundError ∧
    (receive_round1data ctxZero pA3 dB).2 = pA3 :=
  c9_rejected_after_round_two ctxZero pA3 dB (Or.inl (by decide))

/-- Witness for the amended C10: the unknown round tag 7 yields an
`InitializationError` with the state unchanged. -/
theorem c10_nonempty_receive_total_witness :
    receive ctxZero pA0 (7 :: []) = (.err .InitializationError, pA0) :=
  (c10_nonempty_receive_total ctxZero pA0 7 []).2.2 (by decide)

end FrostDkg
